import Mathlib

/-!
Verification of the Solvix backend (src/main.py, src/schemas.py).

The Python service is shallowly embedded below: the pure guidance-plan
generator becomes a Lean function, and each HTTP route handler becomes a
function from an explicit database state to a result, a new database state,
and the list of write operations it issued against the store.  HTTP errors
raised via HTTPException(404, ...) and HTTPException(400, ...) are embedded
as ApiError.notFound / ApiError.invalidInput; an uncaught Python exception
(such as bson InvalidId escaping the ObjectId constructor) is embedded as
ApiError.internal, matching the unclassified 500 the framework produces.
-/

namespace Solvix

/-- Number of whitespace-separated words of a string, as computed by the
Python expression len(description.split()): maximal runs of non-whitespace
characters are counted, and leading/trailing/repeated whitespace adds no
empty words. -/
def word_count_aux : List Char → Bool → Nat
  | [], _ => 0
  | c :: rest, inWord =>
    if c.isWhitespace then word_count_aux rest false
    else (if inWord then 0 else 1) + word_count_aux rest true

/-- Word count of a string, Python len(s.split()). -/
def word_count (s : String) : Nat := word_count_aux s.toList false

/-- GuidanceStep model from src/schemas.py: index, text, status, optional note. -/
structure GuidanceStep where
  index : Nat
  text : String
  status : String
  note : Option String
deriving Repr, DecidableEq

/-- The fixed base sequence of five instructions in generate_guidance_steps
(src/main.py lines 48-54). -/
def base_texts : List String :=
  [ "Clarify the goal and constraints. Summarize the problem in your own words.",
    "Break the problem into smaller sub-parts. Identify inputs, outputs, and edge cases.",
    "Draft a step-by-step approach or outline to solve each sub-part.",
    "Execute the plan: implement or compute the solution incrementally.",
    "Test with examples, review results, and refine any weak points." ]

/-- The category tip table cat_tips (src/main.py lines 56-61). -/
def cat_tips : List (String × String) :=
  [ ("coding", "Consider time/space complexity and write unit tests."),
    ("math", "Write definitions, known theorems, and try a simple case first."),
    ("writing", "Define audience, tone, and structure (intro, body, conclusion)."),
    ("general", "Stay focused on the main objective and time-box explorations.") ]

/-- Tip selection, Python cat_tips.get(category, cat_tips["general"])
(src/main.py line 62): the table entry for the category, defaulting to the
"general" entry when the category is not a key of the table. -/
def tip_for (category : String) : String :=
  match cat_tips.lookup category with
  | some t => t
  | none => (cat_tips.lookup "general").getD ""

/-- The loop "for i, text in enumerate(base, start=1)" of
generate_guidance_steps (src/main.py lines 64-67): each base text becomes a
pending step, with the tip attached as the note exactly when the 1-based
counter is 2 or 4. -/
def enumerate_steps (tip : String) : Nat → List String → List GuidanceStep
  | _, [] => []
  | i, text :: rest =>
    { index := i, text := text, status := "pending",
      note := if i = 2 ∨ i = 4 then some tip else none }
      :: enumerate_steps tip (i + 1) rest

/-- generate_guidance_steps (src/main.py lines 46-72): the five base steps
with the category tip as note on steps 2 and 4, plus one extra pending
summary step when the description has more than 60 words. -/
def generate_guidance_steps (description : String) (category : String) :
    List GuidanceStep :=
  let tip := tip_for category
  let steps := enumerate_steps tip 1 base_texts
  if word_count description > 60 then
    steps ++ [{ index := steps.length + 1,
                text := "Create a brief summary of the solution and next steps.",
                status := "pending", note := none }]
  else
    steps

/-- Claim C1: for every description and category, generate_guidance_steps
returns exactly 5 steps when the description's whitespace-separated word
count is at most 60, and exactly 6 steps when the word count exceeds 60. -/
theorem generate_step_count (d c : String) :
    (generate_guidance_steps d c).length = if word_count d ≤ 60 then 5 else 6 := by
  unfold generate_guidance_steps
  by_cases h : word_count d > 60
  · rw [if_pos h, if_neg (by omega)]
    simp [enumerate_steps, base_texts]
  · rw [if_neg h, if_pos (by omega)]
    simp [enumerate_steps, base_texts]

/-- Claim C2: every generated step is pending, the category tip (as selected
by tip_for) is the note of exactly the 2nd and 4th steps (positions 1 and 3
zero-based) and of no other step, and tip_for falls back to the "general"
tip for every category outside coding, math, writing. -/
theorem generate_note_placement (d c : String) :
    (∀ i st, (generate_guidance_steps d c)[i]? = some st →
        st.status = "pending" ∧
        st.note = (if i = 1 ∨ i = 3 then some (tip_for c) else none)) ∧
    (c ≠ "coding" → c ≠ "math" → c ≠ "writing" →
        tip_for c = "Stay focused on the main objective and time-box explorations.") := by
  constructor
  · intro i st hst
    unfold generate_guidance_steps at hst
    by_cases hw : word_count d > 60
    · rw [if_pos hw] at hst
      simp only [enumerate_steps, base_texts] at hst
      rcases i with _|_|_|_|_|_|i <;> simp_all <;> (subst hst; exact ⟨rfl, rfl⟩)
    · rw [if_neg hw] at hst
      simp only [enumerate_steps, base_texts] at hst
      rcases i with _|_|_|_|_|i <;> simp_all <;> (subst hst; exact ⟨rfl, rfl⟩)
  · intro h1 h2 h3
    by_cases hg : c = "general"
    · subst hg; rfl
    · have e1 : (c == "coding") = false := beq_eq_false_iff_ne.mpr h1
      have e2 : (c == "math") = false := beq_eq_false_iff_ne.mpr h2
      have e3 : (c == "writing") = false := beq_eq_false_iff_ne.mpr h3
      have e4 : (c == "general") = false := beq_eq_false_iff_ne.mpr hg
      simp [tip_for, cat_tips, List.lookup, e1, e2, e3, e4]

/-- Witness for generate_note_placement: at description "x" and category
"mystery", the 2nd step is pending and carries the general tip as its note. -/
theorem generate_note_placement_witness :
    ({ index := 2,
       text := "Break the problem into smaller sub-parts. Identify inputs, outputs, and edge cases.",
       status := "pending",
       note := some "Stay focused on the main objective and time-box explorations." }
      : GuidanceStep).status = "pending" ∧
    tip_for "mystery" = "Stay focused on the main objective and time-box explorations." := by
  constructor
  · exact ((generate_note_placement "x" "mystery").1 1 _ rfl).1
  · exact (generate_note_placement "x" "mystery").2 (by decide) (by decide) (by decide)

/-- A step document as stored inside a session document: the dict produced
by GuidanceStep.model_dump(), whose "index" key is popped before storage by
both write paths, so index is optional here. -/
structure StepDoc where
  index : Option Nat
  text : String
  status : String
  note : Option String
deriving Repr, DecidableEq

/-- A session document (Session model of src/schemas.py, stored in the
"session" collection). -/
structure SessionDoc where
  problem_id : Option String
  problem_title : String
  problem_description : String
  category : String
  difficulty : String
  steps : List StepDoc
  current_step : Nat
deriving Repr, DecidableEq

/-- A problem document in the "problem" collection.  All four fields are
optional because create_session reads them with dict .get, tolerating
documents that lack any of them. -/
structure ProblemDoc where
  title : Option String
  description : Option String
  category : Option String
  difficulty : Option String
deriving Repr, DecidableEq

/-- A message document in the "message" collection. -/
structure MessageDoc where
  id : String
  session_id : String
  role : String
  content : String
deriving Repr, DecidableEq

/-- The document store: keyed problem and session collections plus the
message collection in insertion order (Mongo sort by ascending _id). -/
structure DB where
  problems : List (String × ProblemDoc)
  sessions : List (String × SessionDoc)
  messages : List MessageDoc
deriving Repr, DecidableEq

/-- Hex-digit test for ObjectId validation. -/
def isHexDigitCh (c : Char) : Bool :=
  c.isDigit || (('a' ≤ c) && (c ≤ 'f')) || (('A' ≤ c) && (c ≤ 'F'))

/-- A string is accepted by the bson ObjectId constructor exactly when it is
24 hexadecimal characters; any other string makes the constructor raise
InvalidId, which no handler in src/main.py catches. -/
def isValidObjectId (s : String) : Bool :=
  (s.length == 24) && s.toList.all isHexDigitCh

/-- Errors surfaced by a route handler.  notFound embeds
HTTPException(404, msg), invalidInput embeds HTTPException(400, msg), and
internal embeds an uncaught exception that the framework converts into an
unclassified 500 response. -/
inductive ApiError where
  | notFound (msg : String)
  | invalidInput (msg : String)
  | internal (msg : String)
deriving Repr, DecidableEq

/-- One write issued against the store: an insert_one / create_document or
an update_one, tagged with collection name and document id. -/
inductive WriteOp where
  | insert (collection : String) (id : String)
  | update (collection : String) (id : String)
deriving Repr, DecidableEq

/-- Python truthiness of an Optional[str]: None and the empty string are
falsy, every other string is truthy. -/
def strTruthy : Option String → Bool
  | none => false
  | some s => !(s == "")

/-- The "s.pop(index)" applied to each generated step dict before storage
(src/main.py lines 218-219 and 248-249). -/
def stripIndex (s : GuidanceStep) : StepDoc :=
  { index := none, text := s.text, status := s.status, note := s.note }

/-- update_one on the session collection with filter {_id: sid}: replaces
the first document whose key equals sid. -/
def setSession : List (String × SessionDoc) → String → SessionDoc →
    List (String × SessionDoc)
  | [], _, _ => []
  | (k, v) :: rest, sid, doc =>
    if k == sid then (k, doc) :: rest else (k, v) :: setSession rest sid doc

/-- Request body of POST /api/sessions (CreateSession model,
src/main.py lines 86-92, defaults included). -/
structure CreateSessionPayload where
  problem_id : Option String := none
  title : Option String := none
  description : Option String := none
  category : String := "general"
  difficulty : String := "medium"
  auto_generate_steps : Bool := true
deriving Repr, DecidableEq

/-- Request body of PATCH .../steps/{step_index} (UpdateStep model). -/
structure UpdateStepPayload where
  status : Option String := none
  note : Option String := none
deriving Repr, DecidableEq

/-- Outcome of the source-resolution prefix of create_session
(src/main.py lines 184-197): the problem_id to cache (None when the request
carried a falsy problem_id) and the resolved title, description, category
and difficulty. -/
structure Resolved where
  problem_id : Option String
  title : Option String
  description : Option String
  category : String
  difficulty : String
deriving Repr, DecidableEq

/-- Source resolution of create_session (src/main.py lines 184-197): when
the payload's problem_id is truthy the referenced problem document is looked
up (404 when absent, uncaught InvalidId when malformed) and its title and
description replace the payload's, with payload category/difficulty kept
only as dict-get defaults; otherwise the payload fields are used directly. -/
def resolveSource (db : DB) (payload : CreateSessionPayload) :
    Except ApiError Resolved :=
  if strTruthy payload.problem_id then
    let pid := payload.problem_id.getD ""
    if isValidObjectId pid then
      match db.problems.lookup pid with
      | none => .error (.notFound "Problem not found")
      | some prob =>
        .ok { problem_id := some pid, title := prob.title,
              description := prob.description,
              category := prob.category.getD payload.category,
              difficulty := prob.difficulty.getD payload.difficulty }
    else .error (.internal "InvalidId")
  else
    .ok { problem_id := none, title := payload.title,
          description := payload.description,
          category := payload.category, difficulty := payload.difficulty }

/-- POST /api/sessions (create_session, src/main.py lines 182-223).  fresh
is the object id the store assigns to the inserted session document.  The
result carries the returned (id, document) pair, the new store state, and
the writes issued in order: an insert of the session with an empty step
list, then, when auto_generate_steps is set, a second update_one attaching
the generated steps with their index keys popped. -/
def create_session (db : DB) (payload : CreateSessionPayload) (fresh : String) :
    Except ApiError (String × SessionDoc) × DB × List WriteOp :=
  match resolveSource db payload with
  | .error e => (.error e, db, [])
  | .ok r =>
    if !(strTruthy r.title) || !(strTruthy r.description) then
      (.error (.invalidInput "Provide either problem_id or title+description"), db, [])
    else
      let doc : SessionDoc :=
        { problem_id := r.problem_id, problem_title := r.title.getD "",
          problem_description := r.description.getD "",
          category := r.category, difficulty := r.difficulty,
          steps := [], current_step := 1 }
      let db1 : DB := { db with sessions := db.sessions ++ [(fresh, doc)] }
      if payload.auto_generate_steps then
        let steps :=
          (generate_guidance_steps doc.problem_description r.category).map stripIndex
        let doc2 : SessionDoc := { doc with steps := steps }
        (.ok (fresh, doc2),
         { db1 with sessions := setSession db1.sessions fresh doc2 },
         [.insert "session" fresh, .update "session" fresh])
      else
        (.ok (fresh, doc), db1, [.insert "session" fresh])

/-- The loop "for i, st in enumerate(out[steps], start=1): st[index] = i" of
get_session (src/main.py lines 237-238): overwrite each step's index with
its 1-based position. -/
def withIndices : Nat → List StepDoc → List StepDoc
  | _, [] => []
  | i, st :: rest => { st with index := some i } :: withIndices (i + 1) rest

/-- The composed view returned by GET /api/sessions/{id}: session fields,
steps with recomputed indices, and the session's messages. -/
structure SessionView where
  id : String
  problem_id : Option String
  problem_title : String
  problem_description : String
  category : String
  difficulty : String
  steps : List StepDoc
  current_step : Nat
  messages : List MessageDoc
deriving Repr, DecidableEq

/-- GET /api/sessions/{session_id} (get_session, src/main.py lines 226-239):
load the session (uncaught InvalidId on a malformed id, 404 when absent),
attach its messages in insertion order, and recompute each step's index from
its position. -/
def get_session (db : DB) (session_id : String) : Except ApiError SessionView :=
  if isValidObjectId session_id then
    match db.sessions.lookup session_id with
    | none => .error (.notFound "Session not found")
    | some doc =>
      .ok { id := session_id, problem_id := doc.problem_id,
            problem_title := doc.problem_title,
            problem_description := doc.problem_description,
            category := doc.category, difficulty := doc.difficulty,
            steps := withIndices 1 doc.steps,
            current_step := doc.current_step,
            messages := db.messages.filter (fun m => m.session_id == session_id) }
  else .error (.internal "InvalidId")

/-- POST /api/sessions/{session_id}/steps/generate (generate_steps,
src/main.py lines 242-251): rerun the generator on the cached description
and category, strip the index keys, and update the session with the new
step list and current_step reset to 1. -/
def generate_steps (db : DB) (session_id : String) :
    Except ApiError Unit × DB × List WriteOp :=
  if isValidObjectId session_id then
    match db.sessions.lookup session_id with
    | none => (.error (.notFound "Session not found"), db, [])
    | some doc =>
      let steps :=
        (generate_guidance_steps doc.problem_description doc.category).map stripIndex
      let doc2 : SessionDoc := { doc with steps := steps, current_step := 1 }
      (.ok (),
       { db with sessions := setSession db.sessions session_id doc2 },
       [.update "session" session_id])
  else (.error (.internal "InvalidId"), db, [])

/-- PATCH /api/sessions/{session_id}/steps/{step_index} (update_step,
src/main.py lines 254-268): 404 when the session is absent, 400 when the
index is outside [1, len(steps)], otherwise mutate only the supplied fields
of the targeted step dict and write the steps list back with one
update_one. -/
def update_step (db : DB) (session_id : String) (step_index : Int)
    (payload : UpdateStepPayload) : Except ApiError Unit × DB × List WriteOp :=
  if isValidObjectId session_id then
    match db.sessions.lookup session_id with
    | none => (.error (.notFound "Session not found"), db, [])
    | some doc =>
      let steps := doc.steps
      if step_index < 1 ∨ step_index > (steps.length : Int) then
        (.error (.invalidInput "Invalid step index"), db, [])
      else
        let idx := (step_index - 1).toNat
        let steps2 := List.modify
          (fun st =>
            { st with status := payload.status.getD st.status,
                      note := payload.note.or st.note }) idx steps
        let doc2 : SessionDoc := { doc with steps := steps2 }
        (.ok (),
         { db with sessions := setSession db.sessions session_id doc2 },
         [.update "session" session_id])
  else (.error (.internal "InvalidId"), db, [])

/-- POST /api/sessions/{session_id}/messages (add_message, src/main.py
lines 271-279): 404 when the session is absent, otherwise append one new
message document referencing the session; fresh is the id the store assigns
to it. -/
def add_message (db : DB) (session_id : String) (role content : String)
    (fresh : String) : Except ApiError String × DB × List WriteOp :=
  if isValidObjectId session_id then
    match db.sessions.lookup session_id with
    | none => (.error (.notFound "Session not found"), db, [])
    | some _ =>
      let msg : MessageDoc :=
        { id := fresh, session_id := session_id, role := role, content := content }
      (.ok fresh, { db with messages := db.messages ++ [msg] },
       [.insert "message" fresh])
  else (.error (.internal "InvalidId"), db, [])

/-- Request body of POST /api/problems (CreateProblem model). -/
structure CreateProblemPayload where
  title : String
  description : String
  category : String := "general"
  difficulty : String := "medium"
deriving Repr, DecidableEq

/-- POST /api/problems (create_problem, src/main.py lines 162-168): insert
one problem document built from the payload. -/
def create_problem (db : DB) (payload : CreateProblemPayload) (fresh : String) :
    Except ApiError (String × ProblemDoc) × DB × List WriteOp :=
  let doc : ProblemDoc :=
    { title := some payload.title, description := some payload.description,
      category := some payload.category, difficulty := some payload.difficulty }
  (.ok (fresh, doc), { db with problems := db.problems ++ [(fresh, doc)] },
   [.insert "problem" fresh])

/-- After setSession on a present key, looking the key up yields the new
document. -/
theorem lookup_setSession_self (l : List (String × SessionDoc)) (sid : String)
    (doc d2 : SessionDoc) (h : l.lookup sid = some doc) :
    (setSession l sid d2).lookup sid = some d2 := by
  induction l with
  | nil => simp [List.lookup] at h
  | cons p rest ih =>
    obtain ⟨k, v⟩ := p
    by_cases hk : k = sid
    · subst hk
      simp [setSession, List.lookup]
    · have h1 : (k == sid) = false := beq_eq_false_iff_ne.mpr hk
      have h2 : (sid == k) = false := beq_eq_false_iff_ne.mpr (Ne.symm hk)
      simp only [List.lookup, h2] at h
      simp only [setSession, h1, if_false, List.lookup, h2]
      exact ih h

/-- setSession leaves the lookup of every other key unchanged. -/
theorem lookup_setSession_ne (l : List (String × SessionDoc)) (sid k : String)
    (d2 : SessionDoc) (hne : k ≠ sid) :
    (setSession l sid d2).lookup k = l.lookup k := by
  induction l with
  | nil => rfl
  | cons p rest ih =>
    obtain ⟨k1, v⟩ := p
    by_cases hk : k1 = sid
    · subst hk
      have h1 : (k == k1) = false := beq_eq_false_iff_ne.mpr hne
      simp [setSession, List.lookup, h1]
    · have h1 : (k1 == sid) = false := beq_eq_false_iff_ne.mpr hk
      by_cases hkk : k = k1
      · subst hkk
        simp [setSession, h1, List.lookup]
      · have h2 : (k == k1) = false := beq_eq_false_iff_ne.mpr hkk
        simp only [setSession, h1, if_false, List.lookup, h2]
        exact ih

/-- Inserting a document under a key that is not yet present makes lookup of
that key yield the document. -/
theorem lookup_append_fresh (l : List (String × SessionDoc)) (fresh : String)
    (doc : SessionDoc) (h : l.lookup fresh = none) :
    (l ++ [(fresh, doc)]).lookup fresh = some doc := by
  induction l with
  | nil => simp [List.lookup]
  | cons p rest ih =>
    obtain ⟨k, v⟩ := p
    by_cases hk : fresh = k
    · subst hk
      simp [List.lookup] at h
    · have h1 : (fresh == k) = false := beq_eq_false_iff_ne.mpr hk
      simp only [List.lookup, h1] at h
      simp only [List.cons_append, List.lookup, h1]
      exact ih h

/-- Every element of withIndices n l carries index n plus its position. -/
theorem withIndices_getElem? (l : List StepDoc) (n i : Nat) (st : StepDoc)
    (h : (withIndices n l)[i]? = some st) : st.index = some (n + i) := by
  induction l generalizing n i with
  | nil => simp [withIndices] at h
  | cons a rest ih =>
    cases i with
    | zero =>
      simp [withIndices] at h
      subst h
      rfl
    | succ i =>
      simp only [withIndices, List.getElem?_cons_succ] at h
      have := ih (n + 1) i h
      rw [this]
      congr 1
      omega

/-- Shape of every successful create_session run: the resolution succeeded
with truthy title and description, the returned id is the freshly assigned
one, and the returned document is the inserted session, with the generated
steps (indices stripped) attached exactly when auto_generate_steps was
set. -/
theorem create_session_ok_shape (db : DB) (payload : CreateSessionPayload)
    (fresh s : String) (doc : SessionDoc) (db2 : DB) (tr : List WriteOp)
    (h : create_session db payload fresh = (.ok (s, doc), db2, tr)) :
    ∃ r, resolveSource db payload = .ok r ∧
      strTruthy r.title = true ∧ strTruthy r.description = true ∧
      s = fresh ∧
      doc = { problem_id := r.problem_id, problem_title := r.title.getD "",
              problem_description := r.description.getD "",
              category := r.category, difficulty := r.difficulty,
              steps :=
                if payload.auto_generate_steps then
                  (generate_guidance_steps (r.description.getD "")
                      r.category).map stripIndex
                else [],
              current_step := 1 } ∧
      db2.problems = db.problems ∧ db2.messages = db.messages ∧
      (db.sessions.lookup fresh = none →
          db2.sessions.lookup fresh = some doc) ∧
      tr = (if payload.auto_generate_steps then
              [WriteOp.insert "session" fresh, WriteOp.update "session" fresh]
            else [WriteOp.insert "session" fresh]) := by
  unfold create_session at h
  cases hres : resolveSource db payload with
  | error e => rw [hres] at h; simp at h
  | ok r =>
    rw [hres] at h
    dsimp only at h
    by_cases hts : (!(strTruthy r.title) || !(strTruthy r.description)) = true
    · rw [if_pos hts] at h
      simp at h
    · rw [if_neg hts] at h
      have hts2 : strTruthy r.title = true ∧ strTruthy r.description = true := by
        cases htt : strTruthy r.title <;> cases htd : strTruthy r.description <;>
          simp [htt, htd] at hts ⊢
      refine ⟨r, rfl, hts2.1, hts2.2, ?_⟩
      by_cases hag : payload.auto_generate_steps = true
      · simp only [hag, if_true] at h ⊢
        simp only [Prod.mk.injEq, Except.ok.injEq] at h
        obtain ⟨⟨hs, hdoc⟩, hdb2, htr⟩ := h
        subst hs hdoc hdb2 htr
        refine ⟨rfl, rfl, rfl, rfl, ?_, rfl⟩
        intro hnone
        exact lookup_setSession_self _ _ _ _ (lookup_append_fresh _ _ _ hnone)
      · have hag2 : ¬(payload.auto_generate_steps = true) := hag
        simp only [if_neg hag2] at h ⊢
        simp only [Prod.mk.injEq, Except.ok.injEq] at h
        obtain ⟨⟨hs, hdoc⟩, hdb2, htr⟩ := h
        subst hs hdoc hdb2 htr
        refine ⟨rfl, rfl, rfl, rfl, ?_, rfl⟩
        intro hnone
        exact lookup_append_fresh _ _ _ hnone

/-- A 24-hex object id for concrete instantiations. -/
def oidA : String := "aaaaaaaaaaaaaaaaaaaaaaaa"

/-- A second 24-hex object id, absent from the concrete stores below. -/
def oidB : String := "bbbbbbbbbbbbbbbbbbbbbbbb"

/-- A concrete stored session whose single step carries manual edits: a
non-pending status, a note, and a stale stored index. -/
def docW : SessionDoc :=
  { problem_id := none, problem_title := "Two Sum",
    problem_description := "Find two numbers adding to a target.",
    category := "coding", difficulty := "medium",
    steps := [{ index := some 7, text := "old step", status := "done",
                note := some "edited" }],
    current_step := 3 }

/-- A concrete store holding exactly the session docW under oidA. -/
def dbW : DB := { problems := [], sessions := [(oidA, docW)], messages := [] }

/-- Claim C3: for every existing session, regenerating steps replaces the
whole step list by a fresh generator run on the cached problem_description
and category (discarding all prior per-step status and note edits) and
resets current_step to 1; a valid but unresolvable session id yields
NotFound. -/
theorem regenerate_resets_plan (db : DB) (sid : String)
    (hv : isValidObjectId sid = true) :
    (db.sessions.lookup sid = none →
        generate_steps db sid = (.error (.notFound "Session not found"), db, [])) ∧
    (∀ doc, db.sessions.lookup sid = some doc →
        ∃ db2, generate_steps db sid = (.ok (), db2, [.update "session" sid]) ∧
          db2.sessions.lookup sid = some
            { doc with
              steps := (generate_guidance_steps doc.problem_description
                  doc.category).map stripIndex,
              current_step := 1 }) := by
  constructor
  · intro h
    simp [generate_steps, hv, h]
  · intro doc h
    refine ⟨{ db with sessions := setSession db.sessions sid { doc with steps := (generate_guidance_steps doc.problem_description doc.category).map stripIndex, current_step := 1 } }, ?_, ?_⟩
    · simp [generate_steps, hv, h]
    · exact lookup_setSession_self _ _ doc _ h

/-- Witness for regenerate_resets_plan: regenerating the concrete session
docW (which has a done step with a note) leaves the generator-default list
and current_step 1. -/
theorem regenerate_resets_plan_witness :
    ∃ db2, generate_steps dbW oidA = (.ok (), db2, [.update "session" oidA]) ∧
      db2.sessions.lookup oidA = some
        { docW with
          steps := (generate_guidance_steps docW.problem_description
              docW.category).map stripIndex,
          current_step := 1 } :=
  (regenerate_resets_plan dbW oidA (by decide)).2 docW (by decide)

/-- Claim C4: reading a session yields steps whose index is exactly their
1-based position, whatever index values were stored, and both write paths
(creation with auto-generation, and regeneration) strip the generator's
index field before storage. -/
theorem step_index_recomputed_on_read (db : DB) (sid : String) :
    (∀ view, get_session db sid = .ok view →
        ∀ i st, view.steps[i]? = some st → st.index = some (i + 1)) ∧
    (∀ payload fresh s doc db2 tr,
        create_session db payload fresh = (.ok (s, doc), db2, tr) →
        ∀ st ∈ doc.steps, st.index = none) ∧
    (∀ db2 tr, generate_steps db sid = (.ok (), db2, tr) →
        ∀ doc2, db2.sessions.lookup sid = some doc2 →
        ∀ st ∈ doc2.steps, st.index = none) := by
  refine ⟨?_, ?_, ?_⟩
  · intro view hv i st hst
    unfold get_session at hv
    by_cases h1 : isValidObjectId sid
    · rw [if_pos h1] at hv
      cases hlook : db.sessions.lookup sid with
      | none => rw [hlook] at hv; simp at hv
      | some doc =>
        rw [hlook] at hv
        dsimp only at hv
        cases hv
        have := withIndices_getElem? doc.steps 1 i st (by simpa using hst)
        simpa [Nat.add_comm] using this
    · rw [if_neg h1] at hv; simp at hv
  · intro payload fresh s doc db2 tr hcs st hmem
    obtain ⟨r, hres, ht, hd, hs, hdoc, hprob, hmsg, hlk, htr⟩ :=
      create_session_ok_shape db payload fresh s doc db2 tr hcs
    subst hdoc
    dsimp only at hmem
    by_cases hag : payload.auto_generate_steps = true
    · simp only [hag, if_true] at hmem
      obtain ⟨g, -, rfl⟩ := List.mem_map.mp hmem
      rfl
    · have hag2 : ¬(payload.auto_generate_steps = true) := hag
      simp only [if_neg hag2] at hmem
      simp at hmem
  · intro db2 tr hgen doc2 hlook2 st hmem
    unfold generate_steps at hgen
    by_cases h1 : isValidObjectId sid
    · rw [if_pos h1] at hgen
      cases hlook : db.sessions.lookup sid with
      | none => rw [hlook] at hgen; simp at hgen
      | some doc =>
        rw [hlook] at hgen
        dsimp only at hgen
        simp only [Prod.mk.injEq] at hgen
        obtain ⟨-, hdb2, -⟩ := hgen
        subst hdb2
        dsimp only at hlook2
        rw [lookup_setSession_self db.sessions sid doc _ hlook] at hlook2
        cases hlook2
        obtain ⟨g, -, rfl⟩ := List.mem_map.mp hmem
        rfl
    · rw [if_neg h1] at hgen; simp at hgen

/-- Witness for step_index_recomputed_on_read: the stored step of docW
carries the stale index 7, yet the composed read view reports index 1 for
the step at position 0. -/
theorem step_index_recomputed_on_read_witness :
    docW.steps = [{ index := some 7, text := "old step", status := "done",
                    note := some "edited" }] ∧
    ({ index := some 1, text := "old step", status := "done",
       note := some "edited" } : StepDoc).index = some 1 := by
  refine ⟨rfl, ?_⟩
  exact (step_index_recomputed_on_read dbW oidA).1
    { id := oidA, problem_id := none, problem_title := "Two Sum",
      problem_description := "Find two numbers adding to a target.",
      category := "coding", difficulty := "medium",
      steps := [{ index := some 1, text := "old step", status := "done",
                  note := some "edited" }],
      current_step := 3, messages := [] } rfl 0 _ rfl

/-- Claim C5: for an existing session, update_step fails with InvalidInput
exactly when the 1-based index falls outside [1, len(steps)], and a valid
session id that does not resolve yields NotFound. -/
theorem update_step_range_check (db : DB) (sid : String) (idx : Int)
    (payload : UpdateStepPayload) (hv : isValidObjectId sid = true) :
    (db.sessions.lookup sid = none →
        update_step db sid idx payload =
          (.error (.notFound "Session not found"), db, [])) ∧
    (∀ doc, db.sessions.lookup sid = some doc →
        ((update_step db sid idx payload).1 =
            .error (.invalidInput "Invalid step index") ↔
          (idx < 1 ∨ idx > (doc.steps.length : Int)))) := by
  constructor
  · intro h
    simp [update_step, hv, h]
  · intro doc h
    by_cases hr : idx < 1 ∨ idx > (doc.steps.length : Int)
    · simp [update_step, hv, h, hr]
    · simp [update_step, hv, h, hr]

/-- Witness for update_step_range_check: index 0 on the one-step session
docW is rejected as InvalidInput, and an absent session id yields
NotFound. -/
theorem update_step_range_check_witness :
    (update_step dbW oidA 0 { status := some "done", note := none }).1 =
      .error (.invalidInput "Invalid step index") ∧
    update_step dbW oidB 1 { status := none, note := none } =
      (.error (.notFound "Session not found"), dbW, []) := by
  constructor
  · exact ((update_step_range_check dbW oidA 0
      { status := some "done", note := none } (by decide)).2 docW
      (by decide)).mpr (by decide)
  · exact (update_step_range_check dbW oidB 1
      { status := none, note := none } (by decide)).1 (by decide)

/-- Claim C6: a successful update_step rewrites only the supplied fields of
the one targeted step; an absent field keeps its stored value, every other
step and every other session field (current_step included) is unchanged, so
are all other sessions, problems and messages, and any status string at all
is accepted. -/
theorem update_step_partial_frame (db : DB) (sid : String) (idx : Int)
    (payload : UpdateStepPayload) (doc : SessionDoc)
    (hv : isValidObjectId sid = true)
    (h : db.sessions.lookup sid = some doc)
    (h1 : 1 ≤ idx) (h2 : idx ≤ (doc.steps.length : Int)) :
    ∃ db2, update_step db sid idx payload =
        (.ok (), db2, [.update "session" sid]) ∧
      db2.problems = db.problems ∧ db2.messages = db.messages ∧
      (∀ k, k ≠ sid → db2.sessions.lookup k = db.sessions.lookup k) ∧
      ∃ doc2, db2.sessions.lookup sid = some doc2 ∧
        doc2.problem_id = doc.problem_id ∧
        doc2.problem_title = doc.problem_title ∧
        doc2.problem_description = doc.problem_description ∧
        doc2.category = doc.category ∧
        doc2.difficulty = doc.difficulty ∧
        doc2.current_step = doc.current_step ∧
        doc2.steps.length = doc.steps.length ∧
        (∀ i, i ≠ (idx - 1).toNat → doc2.steps[i]? = doc.steps[i]?) ∧
        (∀ old, doc.steps[(idx - 1).toNat]? = some old →
            doc2.steps[(idx - 1).toNat]? = some
              { old with status := payload.status.getD old.status,
                         note := payload.note.or old.note }) := by
  have hr : ¬(idx < 1 ∨ idx > (doc.steps.length : Int)) := by omega
  refine ⟨{ db with sessions := setSession db.sessions sid { doc with steps := List.modify (fun st => { st with status := payload.status.getD st.status, note := payload.note.or st.note }) (idx - 1).toNat doc.steps } }, ?_, rfl, rfl, ?_, ?_⟩
  · simp [update_step, hv, h, hr]
  · intro k hk
    exact lookup_setSession_ne _ _ _ _ hk
  · refine ⟨_, lookup_setSession_self _ _ doc _ h,
      rfl, rfl, rfl, rfl, rfl, rfl, ?_, ?_, ?_⟩
    · simp [List.length_modify]
    · intro i hi
      have hi2 : idx.toNat - 1 ≠ i := by omega
      cases hx : doc.steps[i]? <;>
        simp [List.getElem?_modify, hx, hi2]
    · intro old hold
      rw [List.getElem?_modify, hold]
      simp

/-- Witness for update_step_partial_frame: updating step 1 of docW with a
status outside the pending/in_progress/done enum succeeds, the note edit
survives, and current_step stays 3. -/
theorem update_step_partial_frame_witness :
    ∃ db2, update_step dbW oidA 1
        { status := some "weird-status", note := none } =
        (.ok (), db2, [.update "session" oidA]) ∧
      ∃ doc2, db2.sessions.lookup oidA = some doc2 ∧
        doc2.steps[(0 : Nat)]? = some
          { index := some 7, text := "old step", status := "weird-status",
            note := some "edited" } ∧
        doc2.current_step = 3 := by
  obtain ⟨db2, heq, hprob, hmsg, hother, doc2, hlk, hpid, htit, hdesc, hcat,
      hdiff, hcur, hlen, hframe, htarget⟩ :=
    update_step_partial_frame dbW oidA 1
      { status := some "weird-status", note := none } docW
      (by decide) (by decide) (by decide) (by decide)
  refine ⟨db2, heq, doc2, hlk, ?_, ?_⟩
  · have ht := htarget { index := some 7, text := "old step", status := "done", note := some "edited" } rfl
    simpa using ht
  · rw [hcur]; rfl

/-- A third 24-hex object id, used as freshly assigned id. -/
def oidC : String := "cccccccccccccccccccccccc"

/-- A concrete stored problem that lacks its difficulty field. -/
def probW : ProblemDoc :=
  { title := some "Two Sum",
    description := some "Given an array of integers return indices of the two numbers adding to target.",
    category := some "coding", difficulty := none }

/-- A concrete store holding exactly the problem probW under oidB. -/
def dbP : DB := { problems := [(oidB, probW)], sessions := [], messages := [] }

/-- Claim C7: session creation yields NotFound when a supplied truthy,
well-formed problem_id resolves to no stored problem; yields InvalidInput
when resolution leaves no non-empty title or no non-empty description (in
particular when neither problem_id nor both title and description were
supplied); and on success the persisted session has current_step = 1. -/
theorem create_session_validation (db : DB) (payload : CreateSessionPayload)
    (fresh : String) :
    (∀ pid, payload.problem_id = some pid → pid ≠ "" →
        isValidObjectId pid = true → db.problems.lookup pid = none →
        create_session db payload fresh =
          (.error (.notFound "Problem not found"), db, [])) ∧
    (∀ r, resolveSource db payload = .ok r →
        (strTruthy r.title = false ∨ strTruthy r.description = false) →
        create_session db payload fresh =
          (.error (.invalidInput "Provide either problem_id or title+description"),
           db, [])) ∧
    (∀ s doc db2 tr,
        create_session db payload fresh = (.ok (s, doc), db2, tr) →
        doc.current_step = 1 ∧
        (db.sessions.lookup fresh = none →
            db2.sessions.lookup fresh = some doc)) := by
  refine ⟨?_, ?_, ?_⟩
  · intro pid hp hne hv hnone
    have hres : resolveSource db payload = .error (.notFound "Problem not found") := by
      simp [resolveSource, hp, strTruthy, beq_eq_false_iff_ne.mpr hne, hv, hnone]
    simp [create_session, hres]
  · intro r hres hfalsy
    have hcond : (!(strTruthy r.title) || !(strTruthy r.description)) = true := by
      rcases hfalsy with h | h <;> simp [h]
    simp [create_session, hres, hcond]
  · intro s doc db2 tr hcs
    obtain ⟨r, hres, ht, hd, hs, hdoc, hprob, hmsg, hlk, htr⟩ :=
      create_session_ok_shape db payload fresh s doc db2 tr hcs
    subst hdoc
    exact ⟨rfl, hlk⟩

/-- Witness for create_session_validation: an unresolvable problem_id yields
NotFound, a payload with no description yields InvalidInput, and a
successful ad-hoc creation stores current_step 1. -/
theorem create_session_validation_witness :
    create_session dbP
        { problem_id := some oidA, title := none, description := none,
          category := "general", difficulty := "medium",
          auto_generate_steps := true } oidC =
      (.error (.notFound "Problem not found"), dbP, []) ∧
    create_session dbP
        { problem_id := none, title := some "T", description := none,
          category := "general", difficulty := "medium",
          auto_generate_steps := true } oidC =
      (.error (.invalidInput "Provide either problem_id or title+description"),
       dbP, []) ∧
    ({ problem_id := none, problem_title := "T", problem_description := "D",
       category := "math", difficulty := "easy", steps := [],
       current_step := 1 } : SessionDoc).current_step = 1 := by
  refine ⟨?_, ?_, ?_⟩
  · exact (create_session_validation dbP
      { problem_id := some oidA, title := none, description := none,
        category := "general", difficulty := "medium",
        auto_generate_steps := true } oidC).1 oidA rfl (by decide) (by decide)
      (by decide)
  · exact (create_session_validation dbP
      { problem_id := none, title := some "T", description := none,
        category := "general", difficulty := "medium",
        auto_generate_steps := true } oidC).2.1
      { problem_id := none, title := some "T", description := none,
        category := "general", difficulty := "medium" } rfl (Or.inr rfl)
  · exact ((create_session_validation dbP
      { problem_id := none, title := some "T", description := some "D",
        category := "math", difficulty := "easy",
        auto_generate_steps := false } oidC).2.2 oidC
      { problem_id := none, problem_title := "T", problem_description := "D", category := "math", difficulty := "easy", steps := [], current_step := 1 }
      { problems := dbP.problems, sessions := dbP.sessions ++ [(oidC, { problem_id := none, problem_title := "T", problem_description := "D", category := "math", difficulty := "easy", steps := [], current_step := 1 })], messages := dbP.messages }
      [.insert "session" oidC] rfl).1

/-- Claim C10: when create_session is given a resolvable problem_id, the
stored problem's title and description silently override any
title/description in the request, while the request's category and
difficulty are used only as fallbacks for fields the problem document
lacks. -/
theorem problem_snapshot_precedence (db : DB) (payload : CreateSessionPayload)
    (fresh pid : String) (prob : ProblemDoc)
    (hp : payload.problem_id = some pid) (hne : pid ≠ "")
    (hv : isValidObjectId pid = true)
    (hfound : db.problems.lookup pid = some prob) :
    resolveSource db payload = .ok
      { problem_id := some pid, title := prob.title,
        description := prob.description,
        category := prob.category.getD payload.category,
        difficulty := prob.difficulty.getD payload.difficulty } ∧
    (∀ s doc db2 tr,
        create_session db payload fresh = (.ok (s, doc), db2, tr) →
        prob.title = some doc.problem_title ∧
        prob.description = some doc.problem_description ∧
        doc.category = prob.category.getD payload.category ∧
        doc.difficulty = prob.difficulty.getD payload.difficulty) := by
  have hres : resolveSource db payload = .ok
      { problem_id := some pid, title := prob.title,
        description := prob.description,
        category := prob.category.getD payload.category,
        difficulty := prob.difficulty.getD payload.difficulty } := by
    simp [resolveSource, hp, strTruthy, beq_eq_false_iff_ne.mpr hne, hv, hfound]
  refine ⟨hres, ?_⟩
  intro s doc db2 tr hcs
  obtain ⟨r, hres2, ht, hd, hs, hdoc, -, -, -, -⟩ :=
    create_session_ok_shape db payload fresh s doc db2 tr hcs
  rw [hres] at hres2
  cases hres2
  subst hdoc
  cases hpt : prob.title with
  | none => rw [hpt] at ht; simp [strTruthy] at ht
  | some t =>
    cases hpd : prob.description with
    | none => rw [hpd] at hd; simp [strTruthy] at hd
    | some d => simp [hpt, hpd]

/-- Witness for problem_snapshot_precedence: resolving against the stored
problem probW (category "coding", no difficulty) with a request carrying its
own title, description, category and difficulty keeps the problem's title,
description and category and falls back to the request's difficulty. -/
theorem problem_snapshot_precedence_witness :
    resolveSource dbP
        { problem_id := some oidB, title := some "ClientTitle",
          description := some "ClientDesc", category := "client-cat",
          difficulty := "hard", auto_generate_steps := false } = .ok
      { problem_id := some oidB, title := probW.title,
        description := probW.description,
        category := probW.category.getD "client-cat",
        difficulty := probW.difficulty.getD "hard" } :=
  (problem_snapshot_precedence dbP
    { problem_id := some oidB, title := some "ClientTitle",
      description := some "ClientDesc", category := "client-cat",
      difficulty := "hard", auto_generate_steps := false } oidC oidB probW
    rfl (by decide) (by decide) (by decide)).1

/-- An empty concrete store. -/
def dbE : DB := { problems := [], sessions := [], messages := [] }

/-- Counterexample to claim C8 as stated: creating a session ad hoc with
auto_generate_steps set issues two separate writes against the store — an
insert of the session followed by an update attaching the generated steps —
not a single atomic document write. -/
theorem create_session_two_writes :
    (create_session dbE
        { problem_id := none, title := some "T", description := some "D",
          category := "coding", difficulty := "medium",
          auto_generate_steps := true } oidC).2.2 =
      [.insert "session" oidC, .update "session" oidC] ∧
    (create_session dbE
        { problem_id := none, title := some "T", description := some "D",
          category := "coding", difficulty := "medium",
          auto_generate_steps := true } oidC).2.2.length = 2 := by
  constructor
  · rfl
  · rfl

/-- Claim C8 amended: every failing operation leaves the store unchanged and
issues no write, so a failure never persists partially; addMessage on a
valid but absent session id fails with NotFound and persists no message;
problem creation, step regeneration, step update and message append each
issue at most one write; session creation issues at most two writes,
reaching two exactly in the auto-generation case, where the session insert
is followed by a separate steps update rather than one atomic write. -/
theorem write_discipline (db : DB) :
    (∀ payload fresh e db2 tr,
        create_session db payload fresh = (.error e, db2, tr) →
        db2 = db ∧ tr = []) ∧
    (∀ sid e db2 tr, generate_steps db sid = (.error e, db2, tr) →
        db2 = db ∧ tr = []) ∧
    (∀ sid idx p e db2 tr, update_step db sid idx p = (.error e, db2, tr) →
        db2 = db ∧ tr = []) ∧
    (∀ sid r c fresh e db2 tr,
        add_message db sid r c fresh = (.error e, db2, tr) →
        db2 = db ∧ tr = []) ∧
    (∀ sid r c fresh, isValidObjectId sid = true →
        db.sessions.lookup sid = none →
        add_message db sid r c fresh =
          (.error (.notFound "Session not found"), db, [])) ∧
    (∀ p fresh, (create_problem db p fresh).2.2.length = 1) ∧
    (∀ sid, (generate_steps db sid).2.2.length ≤ 1) ∧
    (∀ sid idx p, (update_step db sid idx p).2.2.length ≤ 1) ∧
    (∀ sid r c fresh, (add_message db sid r c fresh).2.2.length ≤ 1) ∧
    (∀ payload fresh, (create_session db payload fresh).2.2.length ≤ 2 ∧
        ((create_session db payload fresh).2.2.length = 2 →
          payload.auto_generate_steps = true)) := by
  refine ⟨?_, ?_, ?_, ?_, ?_, ?_, ?_, ?_, ?_, ?_⟩
  · intro payload fresh e db2 tr h
    unfold create_session at h
    split at h <;> (try split at h) <;> (try split at h) <;> simp_all
  · intro sid e db2 tr h
    unfold generate_steps at h
    split at h <;> (try split at h) <;> simp_all
  · intro sid idx p e db2 tr h
    unfold update_step at h
    by_cases h1 : isValidObjectId sid
    · rw [if_pos h1] at h
      cases hl : db.sessions.lookup sid with
      | none => rw [hl] at h; simp_all
      | some doc =>
        rw [hl] at h
        dsimp only at h
        by_cases h2 : idx < 1 ∨ idx > (doc.steps.length : Int)
        · rw [if_pos h2] at h; simp_all
        · rw [if_neg h2] at h; simp_all
    · rw [if_neg h1] at h; simp_all
  · intro sid r c fresh e db2 tr h
    unfold add_message at h
    split at h <;> (try split at h) <;> simp_all
  · intro sid r c fresh hv h
    simp [add_message, hv, h]
  · intro p fresh
    rfl
  · intro sid
    unfold generate_steps
    split <;> (try split) <;> simp
  · intro sid idx p
    unfold update_step
    by_cases h1 : isValidObjectId sid
    · rw [if_pos h1]
      cases hl : db.sessions.lookup sid with
      | none => simp
      | some doc =>
        dsimp only
        by_cases h2 : idx < 1 ∨ idx > (doc.steps.length : Int)
        · rw [if_pos h2]; simp
        · rw [if_neg h2]; simp
    · rw [if_neg h1]; simp
  · intro sid r c fresh
    unfold add_message
    split <;> (try split) <;> simp
  · intro payload fresh
    constructor
    · unfold create_session
      split <;> (try split) <;> (try split) <;> simp
    · unfold create_session
      split <;> (try split) <;> (try split) <;> simp_all

/-- Witness for write_discipline: at the concrete store dbW, appending a
message to the absent session oidB fails with NotFound and leaves the store
unchanged with no write issued. -/
theorem write_discipline_witness :
    add_message dbW oidB "user" "hello" oidC =
      (.error (.notFound "Session not found"), dbW, []) :=
  (write_discipline dbW).2.2.2.2.1 oidB "user" "hello" oidC (by decide) (by decide)

/-- Claim C9 (reference behavior at the failing input): a malformed id such
as "zzz" is not rejected with an InvalidInput-class error — the ObjectId
constructor raises before any store query and the exception surfaces as an
unclassified internal failure, here for session read and for message
append, with no write issued. -/
theorem malformed_id_unclassified :
    isValidObjectId "zzz" = false ∧
    get_session dbE "zzz" = .error (.internal "InvalidId") ∧
    add_message dbE "zzz" "user" "hi" oidC =
      (.error (.internal "InvalidId"), dbE, []) :=
  ⟨by decide, rfl, rfl⟩

end Solvix
